import Mathlib

/-!
Verification of the Flex messaging envelope layer of the plasma repository
(`plasma/flex/messaging/messages/__init__.py`) and of the `ArrayCollection`
behaviour exercised by `plasma/test/flex/messaging/test_io.py`.

Python objects are embedded with value semantics: attribute values become the
`Value` type below, `dict`-valued attributes (`headers`, `extendedData`,
`rootCause`) become association lists, raised exceptions become the `Err`
type, and a method that mutates `self` becomes a function returning the
updated record.  `uuid.uuid4()` is nondeterministic, so functions that call
`generateId()` take the generated string as an explicit `fid` argument.
-/

/-- Embedding of the Python attribute values the messages carry:
`None`, strings and integers. -/
inductive Value where
  | null
  | str (s : String)
  | int (n : Int)
  deriving DecidableEq

/-- Embedding of the exceptions the code can raise.  `messageError`,
`invalidOperationError` and `operationNotImplementedError` mirror the classes
imported from the (separate) `errors` module; `notImplementedError`,
`indexError` and `typeError` mirror the Python builtins.  The offending
operation code carried in the exception message is kept as the `Int`
payload of the two operation errors. -/
inductive Err where
  | messageError (msg : String)
  | invalidOperationError (op : Int)
  | operationNotImplementedError (op : Int)
  | notImplementedError
  | indexError
  | typeError
  deriving DecidableEq

/-- A Python `dict` with string keys, as an association list (first hit wins,
mirroring key uniqueness of a `dict`). -/
abbrev Headers := List (String × Value)

/-- `d.get(k)` / `d[k]` lookup on a dict. -/
def dictGetOpt : Headers → String → Option Value
  | [], _ => none
  | (k0, v0) :: rest, k => if k0 = k then some v0 else dictGetOpt rest k

/-- `d.get(k, dflt)` on a dict. -/
def dictGet (d : Headers) (k : String) (dflt : Value) : Value :=
  (dictGetOpt d k).getD dflt

/-- `d[k] = v` on a dict: replace the existing binding or append a new one. -/
def dictSet : Headers → String → Value → Headers
  | [], k, v => [(k, v)]
  | (k0, v0) :: rest, k, v =>
      if k0 = k then (k0, v) :: rest else (k0, v0) :: dictSet rest k v

/-- `AbstractMessage.FLEX_CLIENT_ID`. -/
def FLEX_CLIENT_ID : String := "DSId"

/-- Modelled from the spec: the `operations` registry module
(`plasma.flex.messaging.messages.operations`) is not under `src/`.  The spec
(§4.3) fixes the ordered catalog of command operation codes `0..N-1`, with the
generic/unknown operation first and `ping` sixth, matching index 5 of
`CommandMessage._operation_map`. -/
def operations_unknown : Int := 0

/-- Modelled from the spec: the `ping` code, sixth entry (index 5) of the
ordered operation registry of §4.3. -/
def operations_ping : Int := 5

/-- `AbstractMessage`: the base envelope's attributes, in the order of its
`__slots__` / `__init__`. -/
structure AbstractMessage where
  body : Value
  clientId : Value
  destination : Value
  headers : Headers
  messageId : Value
  timestamp : Value
  timeToLive : Value
  context : Value
  deriving DecidableEq

/-- `AsyncMessage(AbstractMessage)`: adds `correlationId`. -/
structure AsyncMessage extends AbstractMessage where
  correlationId : Value
  deriving DecidableEq

/-- `AcknowledgeMessage(AsyncMessage)`: no additional attributes. -/
structure AcknowledgeMessage extends AsyncMessage where
  deriving DecidableEq

/-- `CommandMessage(AsyncMessage)`: adds `operation` (a registry code). -/
structure CommandMessage extends AsyncMessage where
  operation : Int
  deriving DecidableEq

/-- `ErrorMessage(AcknowledgeMessage)`: adds the fault attributes. -/
structure ErrorMessage extends AcknowledgeMessage where
  extendedData : Headers
  faultCode : Value
  faultDetail : Value
  faultString : Value
  rootCause : Headers
  deriving DecidableEq

/-- `RemotingMessage(AbstractMessage)`: adds `operation` and `source`
(both plain values, not registry codes). -/
structure RemotingMessage extends AbstractMessage where
  operation : Value
  source : Value
  deriving DecidableEq

/-- The keyword arguments accepted by `AbstractMessage.__init__`; a field is
`none` when the keyword is not supplied, so `kwargs.pop(k, dflt)` becomes
`Option.getD`. -/
structure AbstractKwargs where
  body : Option Value := none
  clientId : Option Value := none
  destination : Option Value := none
  headers : Option Headers := none
  messageId : Option Value := none
  timestamp : Option Value := none
  timeToLive : Option Value := none
  context : Option Value := none

/-- Keyword arguments of `AsyncMessage.__init__` (and, by inheritance, of
`AcknowledgeMessage`). -/
structure AsyncKwargs extends AbstractKwargs where
  correlationId : Option Value := none

/-- Keyword arguments of `CommandMessage.__init__`. -/
structure CommandKwargs extends AsyncKwargs where
  operation : Option Int := none

/-- Keyword arguments of `ErrorMessage.__init__`. -/
structure ErrorKwargs extends AsyncKwargs where
  extendedData : Option Headers := none
  faultCode : Option Value := none
  faultDetail : Option Value := none
  faultString : Option Value := none
  rootCause : Option Headers := none

/-- Keyword arguments of `RemotingMessage.__init__`. -/
structure RemotingKwargs extends AbstractKwargs where
  operation : Option Value := none
  source : Option Value := none

/-- `AbstractMessage.__init__`: every attribute is popped from the keyword
bag with its documented default. -/
def mkAbstractMessage (kw : AbstractKwargs) : AbstractMessage :=
  { body := kw.body.getD Value.null
    clientId := kw.clientId.getD Value.null
    destination := kw.destination.getD Value.null
    headers := kw.headers.getD []
    messageId := kw.messageId.getD Value.null
    timestamp := kw.timestamp.getD Value.null
    timeToLive := kw.timeToLive.getD Value.null
    context := kw.context.getD Value.null }

/-- `AsyncMessage.__init__`: delegates to `AbstractMessage.__init__`, then
pops `correlationId`. -/
def mkAsyncMessage (kw : AsyncKwargs) : AsyncMessage :=
  { toAbstractMessage := mkAbstractMessage kw.toAbstractKwargs
    correlationId := kw.correlationId.getD Value.null }

/-- `AcknowledgeMessage` defines no `__init__` of its own: it inherits
`AsyncMessage.__init__`. -/
def mkAcknowledgeMessage (kw : AsyncKwargs) : AcknowledgeMessage :=
  { toAsyncMessage := mkAsyncMessage kw }

/-- `CommandMessage.__init__`: delegates to `AsyncMessage.__init__`, then pops
`operation` with registry default `operations.unknown`. -/
def mkCommandMessage (kw : CommandKwargs) : CommandMessage :=
  { toAsyncMessage := mkAsyncMessage kw.toAsyncKwargs
    operation := kw.operation.getD operations_unknown }

/-- `ErrorMessage.__init__`: delegates to `AcknowledgeMessage.__init__`, then
pops the fault attributes. -/
def mkErrorMessage (kw : ErrorKwargs) : ErrorMessage :=
  { toAcknowledgeMessage := mkAcknowledgeMessage kw.toAsyncKwargs
    extendedData := kw.extendedData.getD []
    faultCode := kw.faultCode.getD Value.null
    faultDetail := kw.faultDetail.getD Value.null
    faultString := kw.faultString.getD Value.null
    rootCause := kw.rootCause.getD [] }

/-- `RemotingMessage.__init__`: delegates to `AbstractMessage.__init__`, then
pops `operation` and `source`. -/
def mkRemotingMessage (kw : RemotingKwargs) : RemotingMessage :=
  { toAbstractMessage := mkAbstractMessage kw.toAbstractKwargs
    operation := kw.operation.getD Value.null
    source := kw.source.getD Value.null }

/-- `AbstractMessage.acknowledge(self, msg)`.  Every assignment in the source
targets `self` (`self.correlationId`, `self.headers[FLEX_CLIENT_ID]`,
`self.clientId`); the embedding returns the pair (updated `self`, `msg` after
the call) so that the absence of writes to `msg` is part of the definition.
`fid` is the string `generateId()` returns in the `msg.clientId is None`
branch.  The source method lives on `AbstractMessage` but writes
`self.correlationId`, which only exists on the `AsyncMessage` family, so
`self` is embedded at `AsyncMessage`. -/
def AsyncMessage.acknowledgeS (self : AsyncMessage) (msg : AbstractMessage)
    (fid : String) : AsyncMessage × AbstractMessage :=
  let self := { self with correlationId := msg.messageId }
  let self := { self with
    headers := dictSet self.headers FLEX_CLIENT_ID
      (dictGet msg.headers FLEX_CLIENT_ID Value.null) }
  let self :=
    if msg.clientId = Value.null then { self with clientId := Value.str fid }
    else { self with clientId := msg.clientId }
  (self, msg)

/-- The updated reply envelope produced by `acknowledge`. -/
def AsyncMessage.acknowledge (self : AsyncMessage) (msg : AbstractMessage)
    (fid : String) : AsyncMessage :=
  (self.acknowledgeS msg fid).1

/-- `AbstractMessage.respond`: `raise MessageError("Cannot respond to
AbstractMessage.")`.  Returned together with the (untouched) receiver. -/
def AbstractMessage.respondS (self : AbstractMessage) :
    Except Err (List AcknowledgeMessage) × AbstractMessage :=
  (Except.error (Err.messageError "Cannot respond to AbstractMessage."), self)

/-- `AbstractMessage.respond`, result only. -/
def AbstractMessage.respond (self : AbstractMessage) :
    Except Err (List AcknowledgeMessage) :=
  self.respondS.1

/-- `AsyncMessage` defines no `respond`: it inherits the abstract one. -/
def AsyncMessage.respond (self : AsyncMessage) :
    Except Err (List AcknowledgeMessage) :=
  self.toAbstractMessage.respond

/-- `AcknowledgeMessage` defines no `respond`: it inherits the abstract one. -/
def AcknowledgeMessage.respond (self : AcknowledgeMessage) :
    Except Err (List AcknowledgeMessage) :=
  self.toAbstractMessage.respond

/-- `ErrorMessage` defines no `respond`: it inherits the abstract one. -/
def ErrorMessage.respond (self : ErrorMessage) :
    Except Err (List AcknowledgeMessage) :=
  self.toAbstractMessage.respond

/-- `RemotingMessage` defines no `respond`: it inherits the abstract one. -/
def RemotingMessage.respond (self : RemotingMessage) :
    Except Err (List AcknowledgeMessage) :=
  self.toAbstractMessage.respond

/-- `CommandMessage.operationNotImplemented`: raises
`OperationNotImplementedError` naming `self.operation`. -/
def CommandMessage.operationNotImplemented (self : CommandMessage)
    (_fid : String) : Except Err (List AcknowledgeMessage) × CommandMessage :=
  (Except.error (Err.operationNotImplementedError self.operation), self)

/-- `CommandMessage.ping`: `msg = AcknowledgeMessage(); msg.acknowledge(self);
return [msg]`.  The receiver is rebuilt from the `msg` component returned by
`acknowledgeS`, so any write to the original would show up here. -/
def CommandMessage.ping (self : CommandMessage) (fid : String) :
    Except Err (List AcknowledgeMessage) × CommandMessage :=
  let msg := mkAcknowledgeMessage {}
  let p := msg.toAsyncMessage.acknowledgeS self.toAbstractMessage fid
  (Except.ok [{ toAsyncMessage := p.1 }],
   { self with toAbstractMessage := p.2 })

/-- `CommandMessage._operation_map`: a 13-entry tuple of handlers, `ping` at
index 5 and `operationNotImplemented` everywhere else. -/
def operationMap :
    List (CommandMessage → String →
      Except Err (List AcknowledgeMessage) × CommandMessage) :=
  [CommandMessage.operationNotImplemented,
   CommandMessage.operationNotImplemented,
   CommandMessage.operationNotImplemented,
   CommandMessage.operationNotImplemented,
   CommandMessage.operationNotImplemented,
   CommandMessage.ping,
   CommandMessage.operationNotImplemented,
   CommandMessage.operationNotImplemented,
   CommandMessage.operationNotImplemented,
   CommandMessage.operationNotImplemented,
   CommandMessage.operationNotImplemented,
   CommandMessage.operationNotImplemented,
   CommandMessage.operationNotImplemented]

/-- `CommandMessage.respond`: validates
`self.operation < 0 or self.operation > len(self._operation_map)` (note the
source's `>` where `>=` would exclude the length itself), raising
`InvalidOperationError` with the offending code, and otherwise indexes
`_operation_map[self.operation]`; an index equal to the tuple length escapes
the guard and makes the tuple subscript raise `IndexError`. -/
def CommandMessage.respondS (self : CommandMessage) (fid : String) :
    Except Err (List AcknowledgeMessage) × CommandMessage :=
  if self.operation < 0 ∨ self.operation > (operationMap.length : Int) then
    (Except.error (Err.invalidOperationError self.operation), self)
  else
    match operationMap.get? self.operation.toNat with
    | some handler => handler self fid
    | none => (Except.error Err.indexError, self)

/-- `CommandMessage.respond`, result only. -/
def CommandMessage.respond (self : CommandMessage) (fid : String) :
    Except Err (List AcknowledgeMessage) :=
  (self.respondS fid).1

/-- Modelled from the spec: the compact-form ("small") message classes of
`plasma.flex.messaging.messages.small` are not under `src/`; §4.1 and §6
describe them as per-type lossless projections wrapping the envelope, so each
is a constructor around the message it projects. -/
inductive SmallMessage where
  | asyncMessageExt (m : AsyncMessage)
  | acknowledgeMessageExt (m : AcknowledgeMessage)
  | commandMessageExt (m : CommandMessage)
  deriving DecidableEq

/-- `AbstractMessage.getSmallMessage`: `raise NotImplementedError`. -/
def AbstractMessage.getSmallMessage (_self : AbstractMessage) :
    Except Err SmallMessage :=
  Except.error Err.notImplementedError

/-- `AsyncMessage.getSmallMessage`: returns `small.AsyncMessageExt(self)`. -/
def AsyncMessage.getSmallMessage (self : AsyncMessage) :
    Except Err SmallMessage :=
  Except.ok (SmallMessage.asyncMessageExt self)

/-- `AcknowledgeMessage.getSmallMessage`: returns
`small.AcknowledgeMessageExt(self)`. -/
def AcknowledgeMessage.getSmallMessage (self : AcknowledgeMessage) :
    Except Err SmallMessage :=
  Except.ok (SmallMessage.acknowledgeMessageExt self)

/-- `CommandMessage.getSmallMessage`: returns
`small.CommandMessageExt(self)`. -/
def CommandMessage.getSmallMessage (self : CommandMessage) :
    Except Err SmallMessage :=
  Except.ok (SmallMessage.commandMessageExt self)

/-- `ErrorMessage.getSmallMessage`: `raise NotImplementedError`. -/
def ErrorMessage.getSmallMessage (_self : ErrorMessage) :
    Except Err SmallMessage :=
  Except.error Err.notImplementedError

/-- `RemotingMessage` defines no `getSmallMessage`: it inherits the abstract
one, which raises. -/
def RemotingMessage.getSmallMessage (self : RemotingMessage) :
    Except Err SmallMessage :=
  self.toAbstractMessage.getSmallMessage

/-- The six classes of the envelope hierarchy, for stating per-class facts. -/
inductive MsgClass where
  | abstract
  | async
  | acknowledge
  | command
  | error
  | remoting
  deriving DecidableEq

/-- Each class's own `__slots__` list, in source order.  `AbstractMessage`
starts from `['context']` and extends with its `__amf__.static` tuple; the
subclasses set `__slots__` to just their own additions (empty for
`AcknowledgeMessage`).  Python attribute lookup of `self.__slots__` finds the
most-derived class's list, so this is exactly what `__repr__` iterates. -/
def reprSlots : MsgClass → List String
  | MsgClass.abstract =>
      ["context", "body", "clientId", "destination", "headers", "messageId",
       "timestamp", "timeToLive"]
  | MsgClass.async => ["correlationId"]
  | MsgClass.acknowledge => []
  | MsgClass.command => ["operation"]
  | MsgClass.error =>
      ["extendedData", "faultCode", "faultDetail", "faultString", "rootCause"]
  | MsgClass.remoting => ["operation", "source"]

/-- All attributes an instance of the class actually declares, its inherited
ones included (the union of `__slots__` along the inheritance chain). -/
def allFields : MsgClass → List String
  | MsgClass.abstract => reprSlots MsgClass.abstract
  | MsgClass.async => reprSlots MsgClass.abstract ++ reprSlots MsgClass.async
  | MsgClass.acknowledge =>
      reprSlots MsgClass.abstract ++ reprSlots MsgClass.async ++
        reprSlots MsgClass.acknowledge
  | MsgClass.command =>
      reprSlots MsgClass.abstract ++ reprSlots MsgClass.async ++
        reprSlots MsgClass.command
  | MsgClass.error =>
      reprSlots MsgClass.abstract ++ reprSlots MsgClass.async ++
        reprSlots MsgClass.error
  | MsgClass.remoting =>
      reprSlots MsgClass.abstract ++ reprSlots MsgClass.remoting

/-- Python `repr()` of an embedded attribute value. -/
def pyReprValue : Value → String
  | Value.null => "None"
  | Value.str s => "\x27" ++ s ++ "\x27"
  | Value.int n => toString n

/-- Python `repr()` of a dict-valued attribute. -/
def pyReprHeaders (h : Headers) : String :=
  "\x7b" ++
    String.intercalate ", "
      (h.map (fun kv => pyReprValue (Value.str kv.1) ++ ": " ++
        pyReprValue kv.2)) ++
  "\x7d"

/-- `AbstractMessage.__repr__`'s `getattr(self, k)` followed by `%r`, for the
base attributes. -/
def AbstractMessage.reprAttr (m : AbstractMessage) : String → String
  | "context" => pyReprValue m.context
  | "body" => pyReprValue m.body
  | "clientId" => pyReprValue m.clientId
  | "destination" => pyReprValue m.destination
  | "headers" => pyReprHeaders m.headers
  | "messageId" => pyReprValue m.messageId
  | "timestamp" => pyReprValue m.timestamp
  | "timeToLive" => pyReprValue m.timeToLive
  | _ => ""

/-- `getattr` + `%r` on an `AsyncMessage`. -/
def AsyncMessage.reprAttr (m : AsyncMessage) : String → String
  | "correlationId" => pyReprValue m.correlationId
  | k => m.toAbstractMessage.reprAttr k

/-- `getattr` + `%r` on a `CommandMessage`. -/
def CommandMessage.reprAttr (m : CommandMessage) : String → String
  | "operation" => toString m.operation
  | k => m.toAsyncMessage.reprAttr k

/-- `getattr` + `%r` on an `ErrorMessage`. -/
def ErrorMessage.reprAttr (m : ErrorMessage) : String → String
  | "extendedData" => pyReprHeaders m.extendedData
  | "faultCode" => pyReprValue m.faultCode
  | "faultDetail" => pyReprValue m.faultDetail
  | "faultString" => pyReprValue m.faultString
  | "rootCause" => pyReprHeaders m.rootCause
  | k => m.toAsyncMessage.reprAttr k

/-- `getattr` + `%r` on a `RemotingMessage`. -/
def RemotingMessage.reprAttr (m : RemotingMessage) : String → String
  | "operation" => pyReprValue m.operation
  | "source" => pyReprValue m.source
  | k => m.toAbstractMessage.reprAttr k

/-- `AbstractMessage.__repr__`: `<ClassName` then ` k=%r` for each `k` in
`self.__slots__`, then ` />`. -/
def pyReprWith (clsName : String) (slots : List String)
    (attr : String → String) : String :=
  "<" ++ clsName ++
    String.join (slots.map (fun k => " " ++ k ++ "=" ++ attr k)) ++ " />"

/-- `repr()` of an `AbstractMessage` instance. -/
def AbstractMessage.pyrepr (m : AbstractMessage) : String :=
  pyReprWith "AbstractMessage" (reprSlots MsgClass.abstract) m.reprAttr

/-- `repr()` of an `AsyncMessage` instance: the inherited `__repr__` iterates
the most-derived class's `__slots__`, here `('correlationId',)`. -/
def AsyncMessage.pyrepr (m : AsyncMessage) : String :=
  pyReprWith "AsyncMessage" (reprSlots MsgClass.async) m.reprAttr

/-- `repr()` of an `AcknowledgeMessage` instance: its `__slots__` is `()`. -/
def AcknowledgeMessage.pyrepr (m : AcknowledgeMessage) : String :=
  pyReprWith "AcknowledgeMessage" (reprSlots MsgClass.acknowledge)
    m.toAsyncMessage.reprAttr

/-- `repr()` of a `CommandMessage` instance: its `__slots__` is
`('operation',)`. -/
def CommandMessage.pyrepr (m : CommandMessage) : String :=
  pyReprWith "CommandMessage" (reprSlots MsgClass.command) m.reprAttr

/-- `repr()` of an `ErrorMessage` instance. -/
def ErrorMessage.pyrepr (m : ErrorMessage) : String :=
  pyReprWith "ErrorMessage" (reprSlots MsgClass.error) m.reprAttr

/-- `repr()` of a `RemotingMessage` instance. -/
def RemotingMessage.pyrepr (m : RemotingMessage) : String :=
  pyReprWith "RemotingMessage" (reprSlots MsgClass.remoting) m.reprAttr

/-- Whether the character list `s` starts with `pat`. -/
def charsLeadWith : List Char → List Char → Bool
  | [], _ => true
  | _ :: _, [] => false
  | a :: as, b :: bs => a = b && charsLeadWith as bs

/-- Whether `pat` occurs as a contiguous run inside `s`. -/
def charsHave (pat : List Char) : List Char → Bool
  | [] => charsLeadWith pat []
  | c :: rest => charsLeadWith pat (c :: rest) || charsHave pat rest

/-- `s` surfaces attribute `field` when the fragment `" field="` that
`__repr__` emits for a shown attribute occurs in `s`. -/
def surfacesField (s field : String) : Bool :=
  charsHave (" " ++ field ++ "=").data s.data

/-- Modelled from the spec: `plasma.flex.messaging.io.ArrayCollection` is not
under `src/` (only its tests are).  §4.4 and the tests make it an ordered
sequence; construction takes nothing (empty), or a finite ordered iterable
(materialized in order), and rejects a keyed/mapping value with a
`TypeError`. -/
inductive PyIterArg where
  | mapping (entries : Headers)
  | iterable (elems : List Value)
  deriving DecidableEq

/-- Modelled from the spec: `ArrayCollection(source)` construction (§4.4,
`test_create`). -/
def ArrayCollection_create : Option PyIterArg → Except Err (List Value)
  | none => Except.ok []
  | some (PyIterArg.mapping _) => Except.error Err.typeError
  | some (PyIterArg.iterable l) => Except.ok l

/-- Modelled from the spec: `ArrayCollection.getItemAt(index)` with bounds
`0 <= index < length`, else `IndexError` (§4.4, `test_getItemAt`). -/
def ArrayCollection_getItemAt (xs : List Value) (i : Int) :
    Except Err Value :=
  if i < 0 ∨ (xs.length : Int) ≤ i then Except.error Err.indexError
  else Except.ok (xs.getD i.toNat Value.null)

/-- Modelled from the spec: `ArrayCollection.removeItemAt(index)` with strict
bounds, returning the removed value and the remaining sequence (§4.4,
`test_removeItemAt`). -/
def ArrayCollection_removeItemAt (xs : List Value) (i : Int) :
    Except Err (Value × List Value) :=
  if i < 0 ∨ (xs.length : Int) ≤ i then Except.error Err.indexError
  else Except.ok
    (xs.getD i.toNat Value.null, xs.take i.toNat ++ xs.drop (i.toNat + 1))

/-- `repr()` of the all-defaults instance of each class. -/
def defaultPyrepr : MsgClass → String
  | MsgClass.abstract => (mkAbstractMessage {}).pyrepr
  | MsgClass.async => (mkAsyncMessage {}).pyrepr
  | MsgClass.acknowledge => (mkAcknowledgeMessage {}).pyrepr
  | MsgClass.command => (mkCommandMessage {}).pyrepr
  | MsgClass.error => (mkErrorMessage {}).pyrepr
  | MsgClass.remoting => (mkRemotingMessage {}).pyrepr

/-! ## Helper lemmas -/

theorem dictGetOpt_dictSet (d : Headers) (k : String) (v : Value) :
    dictGetOpt (dictSet d k v) k = some v := by
  induction d with
  | nil => simp [dictSet, dictGetOpt]
  | cons hd tl ih =>
      by_cases hk : hd.1 = k
      · simp [dictSet, dictGetOpt, hk]
      · simp [dictSet, dictGetOpt, hk, ih]

theorem acknowledgeS_correlationId (self : AsyncMessage)
    (msg : AbstractMessage) (fid : String) :
    (self.acknowledgeS msg fid).1.correlationId = msg.messageId := by
  unfold AsyncMessage.acknowledgeS
  split <;> rfl

theorem acknowledgeS_headers (self : AsyncMessage) (msg : AbstractMessage)
    (fid : String) :
    dictGetOpt (self.acknowledgeS msg fid).1.headers FLEX_CLIENT_ID =
      some (dictGet msg.headers FLEX_CLIENT_ID Value.null) := by
  unfold AsyncMessage.acknowledgeS
  split <;> exact dictGetOpt_dictSet _ _ _

theorem acknowledgeS_clientId (self : AsyncMessage) (msg : AbstractMessage)
    (fid : String) :
    (self.acknowledgeS msg fid).1.clientId =
      if msg.clientId = Value.null then Value.str fid else msg.clientId := by
  unfold AsyncMessage.acknowledgeS
  split <;> simp_all

theorem acknowledgeS_original (self : AsyncMessage) (msg : AbstractMessage)
    (fid : String) : (self.acknowledgeS msg fid).2 = msg := rfl

/-! ## The claims -/

/-- C1: the claim says every `operation` outside `[0, registry length)` makes
`respond()` fail with InvalidOperation.  The registry (`_operation_map`) has
13 entries, and the guard in the source reads `self.operation < 0 or
self.operation > len(self._operation_map)`, so the out-of-range code 13
escapes it and the tuple subscript raises a bare `IndexError` instead: the
code contradicts `respond`'s own docstring (`:raises: InvalidOperationError`)
and the spec flags this `>` vs `>=` slip in §9. -/
theorem respond_at_code_13_raises_IndexError_not_InvalidOperation :
    operationMap.length = 13 ∧
    (mkCommandMessage { operation := some 13 }).respond "fid" =
      Except.error Err.indexError ∧
    ∀ op : Int, (mkCommandMessage { operation := some 13 }).respond "fid" ≠
      Except.error (Err.invalidOperationError op) := by
  refine ⟨rfl, rfl, fun op => ?_⟩
  intro h
  exact absurd (Except.error.inj ((rfl :
    (mkCommandMessage { operation := some 13 }).respond "fid" =
      Except.error Err.indexError) ▸ h)) (by intro hh; cases hh)

/-- C2: a `CommandMessage` whose `operation` is the ping code responds with
exactly one `AcknowledgeMessage`, whose `correlationId` is the command's
`messageId`. -/
theorem respond_ping_single_correlated_ack (m : CommandMessage) (fid : String)
    (h : m.operation = operations_ping) :
    ∃ ack : AcknowledgeMessage,
      m.respond fid = Except.ok [ack] ∧ ack.correlationId = m.messageId := by
  refine ⟨{ toAsyncMessage :=
    ((mkAcknowledgeMessage {}).toAsyncMessage.acknowledgeS
      m.toAbstractMessage fid).1 }, ?_, ?_⟩
  · unfold CommandMessage.respond CommandMessage.respondS
    rw [h]
    rfl
  · exact acknowledgeS_correlationId _ _ _

/-- C3: the claim says `respond()` on `AbstractMessage` or on a subtype
without an override fails with an InvalidOperation error.  It does always
fail, but with the generic `MessageError` base class, not with
`InvalidOperationError` — contradicting `AbstractMessage.respond`'s own
docstring (`:raises: InvalidOperationError`). -/
theorem respond_without_override_raises_base_MessageError
    (a : AbstractMessage) (x : AsyncMessage) (k : AcknowledgeMessage)
    (e : ErrorMessage) (r : RemotingMessage) :
    a.respond =
      Except.error (Err.messageError "Cannot respond to AbstractMessage.") ∧
    x.respond =
      Except.error (Err.messageError "Cannot respond to AbstractMessage.") ∧
    k.respond =
      Except.error (Err.messageError "Cannot respond to AbstractMessage.") ∧
    e.respond =
      Except.error (Err.messageError "Cannot respond to AbstractMessage.") ∧
    r.respond =
      Except.error (Err.messageError "Cannot respond to AbstractMessage.") ∧
    ∀ op : Int,
      a.respond ≠ Except.error (Err.invalidOperationError op) := by
  refine ⟨rfl, rfl, rfl, rfl, rfl, fun op h => ?_⟩
  simp [AbstractMessage.respond, AbstractMessage.respondS] at h

/-- C4: `acknowledge(original)` correlates the reply: `correlationId` becomes
the original's `messageId`; the reply's headers map the flex-client-id key to
the original's flex-client-id header value (null when absent); `clientId`
copies the original's when non-null and otherwise takes the freshly generated
id, which is non-null. -/
theorem acknowledge_fully_correlates (self : AsyncMessage)
    (msg : AbstractMessage) (fid : String) :
    (self.acknowledge msg fid).correlationId = msg.messageId ∧
    dictGetOpt (self.acknowledge msg fid).headers FLEX_CLIENT_ID =
      some (dictGet msg.headers FLEX_CLIENT_ID Value.null) ∧
    (msg.clientId ≠ Value.null →
      (self.acknowledge msg fid).clientId = msg.clientId) ∧
    (msg.clientId = Value.null →
      (self.acknowledge msg fid).clientId = Value.str fid ∧
        (self.acknowledge msg fid).clientId ≠ Value.null) := by
  refine ⟨acknowledgeS_correlationId _ _ _, acknowledgeS_headers _ _ _,
    fun h => ?_, fun h => ?_⟩
  · simp only [AsyncMessage.acknowledge, acknowledgeS_clientId, if_neg h]
  · refine ⟨?_, ?_⟩ <;>
      simp [AsyncMessage.acknowledge, acknowledgeS_clientId, if_pos h]

/-- C4 witness: concrete originals with a null and a non-null `clientId`. -/
theorem acknowledge_fully_correlates_witness :
    ((mkAbstractMessage { clientId := some (Value.str "c") }).clientId ≠
      Value.null ∧
     ((mkAsyncMessage {}).acknowledge
        (mkAbstractMessage { clientId := some (Value.str "c") })
        "f").clientId = Value.str "c") ∧
    ((mkAbstractMessage {}).clientId = Value.null ∧
     ((mkAsyncMessage {}).acknowledge (mkAbstractMessage {}) "f").clientId =
       Value.str "f") := by
  constructor
  · exact ⟨by decide,
      (acknowledge_fully_correlates (mkAsyncMessage {}) _ "f").2.2.1
        (by decide)⟩
  · exact ⟨rfl,
      ((acknowledge_fully_correlates (mkAsyncMessage {}) _ "f").2.2.2
        (by decide)).1⟩

/-- C5: an in-range, non-ping operation code makes `respond()` fail with
`OperationNotImplementedError` naming the code. -/
theorem respond_in_range_not_ping_not_implemented (m : CommandMessage)
    (fid : String) (h0 : 0 ≤ m.operation)
    (h1 : m.operation < (operationMap.length : Int))
    (h2 : m.operation ≠ operations_ping) :
    m.respond fid =
      Except.error (Err.operationNotImplementedError m.operation) := by
  obtain ⟨n, hn⟩ : ∃ n : Nat, m.operation = (n : Int) :=
    ⟨m.operation.toNat, (Int.toNat_of_nonneg h0).symm⟩
  have hlen : (operationMap.length : Int) = 13 := rfl
  rw [hlen] at h1
  unfold CommandMessage.respond CommandMessage.respondS
  rw [if_neg (by omega)]
  have hn13 : n < 13 := by omega
  have hn5 : n ≠ 5 := fun hh => h2 (by rw [hn, hh]; rfl)
  rw [hn]
  have ht : ((n : Int)).toNat = n := by omega
  rw [ht]
  interval_cases n <;>
    simp_all [operationMap, CommandMessage.operationNotImplemented]

/-- C5 witness: the subscribe-range code 3 is in range, is not ping, and
responds with the not-implemented error naming 3. -/
theorem respond_in_range_not_ping_witness :
    (0 : Int) ≤ (mkCommandMessage { operation := some 3 }).operation ∧
    (mkCommandMessage { operation := some 3 }).operation <
      (operationMap.length : Int) ∧
    (mkCommandMessage { operation := some 3 }).operation ≠ operations_ping ∧
    (mkCommandMessage { operation := some 3 }).respond "f" =
      Except.error (Err.operationNotImplementedError 3) :=
  ⟨by decide, by decide, by decide,
   respond_in_range_not_ping_not_implemented _ "f" (by decide) (by decide)
     (by decide)⟩

/-- C6: neither `acknowledge` nor `respond` writes to its input envelope: the
original returned alongside the reply is the one passed in, for the base
`respond`, the command `respond` (every handler included) and `acknowledge`. -/
theorem respond_acknowledge_leave_original_unchanged (self : AsyncMessage)
    (msg : AbstractMessage) (fid : String) (a : AbstractMessage)
    (m : CommandMessage) :
    (self.acknowledgeS msg fid).2 = msg ∧
    a.respondS.2 = a ∧
    (m.respondS fid).2 = m := by
  refine ⟨rfl, rfl, ?_⟩
  unfold CommandMessage.respondS
  by_cases h : m.operation < 0 ∨ m.operation > (operationMap.length : Int)
  · rw [if_pos h]
  · rw [if_neg h]
    push_neg at h
    have hlen : (operationMap.length : Int) = 13 := rfl
    rw [hlen] at h
    obtain ⟨n, hn⟩ : ∃ n : Nat, m.operation = (n : Int) :=
      ⟨m.operation.toNat, (Int.toNat_of_nonneg h.1).symm⟩
    have hn13 : n ≤ 13 := by omega
    rw [hn]
    have ht : ((n : Int)).toNat = n := by omega
    rw [ht]
    interval_cases n <;>
      simp [operationMap, CommandMessage.operationNotImplemented,
        CommandMessage.ping, AsyncMessage.acknowledgeS]

/-- C7 counterexample: the claim says the representation surfaces every
declared field, inherited ones included.  `__repr__` iterates
`self.__slots__`, which Python resolves to the most-derived class's own
`__slots__` tuple, so a default `CommandMessage` prints only `operation`:
`messageId` (and every other inherited field) is declared but absent. -/
theorem command_repr_omits_inherited_messageId :
    CommandMessage.pyrepr (mkCommandMessage {}) =
      "<CommandMessage operation=0 />" ∧
    "messageId" ∈ allFields MsgClass.command ∧
    surfacesField (CommandMessage.pyrepr (mkCommandMessage {})) "messageId" =
      false := by
  refine ⟨rfl, by decide, by rfl⟩

/-- C7 (amended): the representation surfaces exactly the fields of the
instance's most-derived class's own `__slots__` (each a declared field), and
that is the full declared field set only for `AbstractMessage` itself — every
proper subtype omits its inherited fields. -/
theorem repr_surfaces_exactly_own_slots (c : MsgClass) :
    (∀ k ∈ allFields c,
      (surfacesField (defaultPyrepr c) k = true ↔ k ∈ reprSlots c)) ∧
    reprSlots c ⊆ allFields c ∧
    (reprSlots c = allFields c ↔ c = MsgClass.abstract) := by
  cases c <;> exact ⟨by decide, by decide, by decide⟩

/-- C7 witness: the one field a default `CommandMessage` does surface. -/
theorem repr_surfaces_exactly_own_slots_witness :
    "operation" ∈ allFields MsgClass.command ∧
    (surfacesField (defaultPyrepr MsgClass.command) "operation" = true ↔
      "operation" ∈ reprSlots MsgClass.command) :=
  ⟨by decide,
   (repr_surfaces_exactly_own_slots MsgClass.command).1 "operation"
     (by decide)⟩

/-- C8: `getSmallMessage()` raises the `NotImplementedError`-kind capability
error on `AbstractMessage` and `ErrorMessage`, and returns a compact-form
projection without raising on `AsyncMessage`, `AcknowledgeMessage` and
`CommandMessage`. -/
theorem getSmallMessage_capability (a : AbstractMessage) (e : ErrorMessage)
    (x : AsyncMessage) (k : AcknowledgeMessage) (c : CommandMessage) :
    a.getSmallMessage = Except.error Err.notImplementedError ∧
    e.getSmallMessage = Except.error Err.notImplementedError ∧
    (∃ s, x.getSmallMessage = Except.ok s) ∧
    (∃ s, k.getSmallMessage = Except.ok s) ∧
    (∃ s, c.getSmallMessage = Except.ok s) :=
  ⟨rfl, rfl, ⟨_, rfl⟩, ⟨_, rfl⟩, ⟨_, rfl⟩⟩

/-- C9: every concrete envelope type is constructable from any partial set of
named field values; each unspecified field takes its documented default —
null for identifier/string/body/timestamp fields, an empty mapping for
`headers`, `extendedData` and `rootCause`, and the registry unknown code for
`CommandMessage.operation`. -/
theorem constructors_apply_documented_defaults (ak : AsyncKwargs)
    (ck : CommandKwargs) (ek : ErrorKwargs) (rk : RemotingKwargs) :
    (ak.body = none → (mkAsyncMessage ak).body = Value.null) ∧
    (ak.clientId = none → (mkAsyncMessage ak).clientId = Value.null) ∧
    (ak.destination = none → (mkAsyncMessage ak).destination = Value.null) ∧
    (ak.messageId = none → (mkAsyncMessage ak).messageId = Value.null) ∧
    (ak.timestamp = none → (mkAsyncMessage ak).timestamp = Value.null) ∧
    (ak.timeToLive = none → (mkAsyncMessage ak).timeToLive = Value.null) ∧
    (ak.correlationId = none →
      (mkAsyncMessage ak).correlationId = Value.null) ∧
    (ak.headers = none → (mkAsyncMessage ak).headers = []) ∧
    (ak.messageId = none →
      (mkAcknowledgeMessage ak).messageId = Value.null) ∧
    (ak.correlationId = none →
      (mkAcknowledgeMessage ak).correlationId = Value.null) ∧
    (ak.headers = none → (mkAcknowledgeMessage ak).headers = []) ∧
    (ck.operation = none →
      (mkCommandMessage ck).operation = operations_unknown) ∧
    (ck.body = none → (mkCommandMessage ck).body = Value.null) ∧
    (ck.headers = none → (mkCommandMessage ck).headers = []) ∧
    (ek.faultCode = none → (mkErrorMessage ek).faultCode = Value.null) ∧
    (ek.faultDetail = none → (mkErrorMessage ek).faultDetail = Value.null) ∧
    (ek.faultString = none → (mkErrorMessage ek).faultString = Value.null) ∧
    (ek.extendedData = none → (mkErrorMessage ek).extendedData = []) ∧
    (ek.rootCause = none → (mkErrorMessage ek).rootCause = []) ∧
    (ek.messageId = none → (mkErrorMessage ek).messageId = Value.null) ∧
    (rk.operation = none → (mkRemotingMessage rk).operation = Value.null) ∧
    (rk.source = none → (mkRemotingMessage rk).source = Value.null) ∧
    (rk.destination = none →
      (mkRemotingMessage rk).destination = Value.null) ∧
    (rk.headers = none → (mkRemotingMessage rk).headers = []) := by
  refine ⟨?_, ?_, ?_, ?_, ?_, ?_, ?_, ?_, ?_, ?_, ?_, ?_, ?_, ?_, ?_, ?_,
    ?_, ?_, ?_, ?_, ?_, ?_, ?_, ?_⟩ <;>
    (intro h
     simp [mkAbstractMessage, mkAsyncMessage, mkAcknowledgeMessage,
       mkCommandMessage, mkErrorMessage, mkRemotingMessage, h])

/-- C9 witness: constructing each type with no keyword at all yields all the
documented defaults. -/
theorem constructors_apply_documented_defaults_witness :
    (mkAsyncMessage {}).body = Value.null ∧
    (mkAsyncMessage {}).clientId = Value.null ∧
    (mkAsyncMessage {}).destination = Value.null ∧
    (mkAsyncMessage {}).messageId = Value.null ∧
    (mkAsyncMessage {}).timestamp = Value.null ∧
    (mkAsyncMessage {}).timeToLive = Value.null ∧
    (mkAsyncMessage {}).correlationId = Value.null ∧
    (mkAsyncMessage {}).headers = [] ∧
    (mkAcknowledgeMessage {}).messageId = Value.null ∧
    (mkAcknowledgeMessage {}).correlationId = Value.null ∧
    (mkAcknowledgeMessage {}).headers = [] ∧
    (mkCommandMessage {}).operation = operations_unknown ∧
    (mkCommandMessage {}).body = Value.null ∧
    (mkCommandMessage {}).headers = [] ∧
    (mkErrorMessage {}).faultCode = Value.null ∧
    (mkErrorMessage {}).faultDetail = Value.null ∧
    (mkErrorMessage {}).faultString = Value.null ∧
    (mkErrorMessage {}).extendedData = [] ∧
    (mkErrorMessage {}).rootCause = [] ∧
    (mkErrorMessage {}).messageId = Value.null ∧
    (mkRemotingMessage {}).operation = Value.null ∧
    (mkRemotingMessage {}).source = Value.null ∧
    (mkRemotingMessage {}).destination = Value.null ∧
    (mkRemotingMessage {}).headers = [] := by
  obtain ⟨h1, h2, h3, h4, h5, h6, h7, h8, h9, h10, h11, h12, h13, h14, h15,
    h16, h17, h18, h19, h20, h21, h22, h23, h24⟩ :=
    constructors_apply_documented_defaults {} {} {} {}
  exact ⟨h1 rfl, h2 rfl, h3 rfl, h4 rfl, h5 rfl, h6 rfl, h7 rfl, h8 rfl,
    h9 rfl, h10 rfl, h11 rfl, h12 rfl, h13 rfl, h14 rfl, h15 rfl, h16 rfl,
    h17 rfl, h18 rfl, h19 rfl, h20 rfl, h21 rfl, h22 rfl, h23 rfl, h24 rfl⟩

/-- C10: `ArrayCollection` positional operations `getItemAt(i)` and
`removeItemAt(i)` fail with the index error exactly when `i` is outside
`[0, length)` — in particular at `i = 0` on an empty collection; construction
from a keyed/mapping value fails with the type error, while construction from
a finite ordered iterable succeeds and preserves element order. -/
theorem arrayCollection_bounds_and_construction (xs : List Value) (i : Int)
    (d : Headers) (l : List Value) :
    ((i < 0 ∨ (xs.length : Int) ≤ i) →
      ArrayCollection_getItemAt xs i = Except.error Err.indexError ∧
      ArrayCollection_removeItemAt xs i = Except.error Err.indexError) ∧
    (¬(i < 0 ∨ (xs.length : Int) ≤ i) →
      (∃ v, ArrayCollection_getItemAt xs i = Except.ok v) ∧
      (∃ p, ArrayCollection_removeItemAt xs i = Except.ok p)) ∧
    ArrayCollection_getItemAt [] 0 = Except.error Err.indexError ∧
    ArrayCollection_removeItemAt [] 0 = Except.error Err.indexError ∧
    ArrayCollection_create (some (PyIterArg.mapping d)) =
      Except.error Err.typeError ∧
    ArrayCollection_create (some (PyIterArg.iterable l)) = Except.ok l := by
  refine ⟨fun h => ⟨?_, ?_⟩, fun h => ⟨?_, ?_⟩, rfl, rfl, rfl, rfl⟩
  · simp [ArrayCollection_getItemAt, h]
  · simp [ArrayCollection_removeItemAt, h]
  · exact ⟨xs.getD i.toNat Value.null,
      by simp [ArrayCollection_getItemAt, h]⟩
  · exact ⟨(xs.getD i.toNat Value.null,
        xs.take i.toNat ++ xs.drop (i.toNat + 1)),
      by simp [ArrayCollection_removeItemAt, h]⟩

/-- C10 witness: the out-of-range case at `getItemAt(0)` on the empty
collection and the in-range case at index 1 of a two-element collection. -/
theorem arrayCollection_bounds_witness :
    (((0 : Int) < 0 ∨ ((([] : List Value)).length : Int) ≤ 0) ∧
      ArrayCollection_getItemAt [] 0 = Except.error Err.indexError ∧
      ArrayCollection_removeItemAt [] 0 = Except.error Err.indexError) ∧
    (¬((1 : Int) < 0 ∨
        (([Value.int 1, Value.int 2] : List Value).length : Int) ≤ 1) ∧
      (∃ v, ArrayCollection_getItemAt [Value.int 1, Value.int 2] 1 =
        Except.ok v)) := by
  refine ⟨⟨by decide, ?_, ?_⟩, by decide, ?_⟩
  · exact ((arrayCollection_bounds_and_construction [] 0 [] []).1
      (by decide)).1
  · exact ((arrayCollection_bounds_and_construction [] 0 [] []).1
      (by decide)).2
  · exact (((arrayCollection_bounds_and_construction
      [Value.int 1, Value.int 2] 1 [] []).2.1 (by decide))).1

/-- C2 witness: a concrete ping command with `messageId` "mid" responds with
exactly one acknowledgement correlated to "mid". -/
theorem respond_ping_single_correlated_ack_witness :
    (mkCommandMessage
        { operation := some 5, messageId := some (Value.str "mid") }
      ).operation = operations_ping ∧
    ∃ ack : AcknowledgeMessage,
      (mkCommandMessage
          { operation := some 5, messageId := some (Value.str "mid") }
        ).respond "f" = Except.ok [ack] ∧
      ack.correlationId =
        (mkCommandMessage
            { operation := some 5, messageId := some (Value.str "mid") }
          ).messageId :=
  ⟨rfl, respond_ping_single_correlated_ack _ "f" rfl⟩
